import Mathlib

/-!
Shallow embedding of `app.py` (course-catalog Flask service): the file-backed
catalog store (`load_courses`, `save_courses`, the delete filter, the
`find` in `course_details`), the request/error counters, and the telemetry
(span attributes/events, structured log records) each route emits.
-/

set_option maxHeartbeats 1000000

namespace CourseCatalog

/-- A course record: the nine string fields built by `add_course` in app.py. -/
structure Course where
  code : String
  name : String
  instructor : String
  semester : String
  schedule : String
  classroom : String
  prerequisites : String
  grading : String
  description : String
deriving DecidableEq, Repr

/-- State of the backing file `course_catalog.json`: absent, present but
unreadable/corrupt (so `json.load` raises), or present with a parsed list. -/
inductive FileState where
  | absent : FileState
  | corrupt : FileState
  | valid : List Course → FileState
deriving DecidableEq, Repr

/-- The failure `load_courses` surfaces when the file exists but cannot be
read or parsed (spec name: StorageUnavailable). -/
inductive StorageError where
  | unavailable : StorageError
deriving DecidableEq, Repr

/-- app.py lines 38-43: return `[]` when the file does not exist, otherwise
parse it, raising on unreadable/corrupt content. -/
def load_courses : FileState → Except StorageError (List Course)
  | .absent => .ok []
  | .corrupt => .error .unavailable
  | .valid cs => .ok cs

/-- app.py lines 46-51: load the existing collection, append the new record,
write the whole collection back. On a load failure, nothing is written. -/
def save_courses (data : Course) (fs : FileState) : Except StorageError FileState :=
  match load_courses fs with
  | .error e => .error e
  | .ok courses => .ok (.valid (courses ++ [data]))

/-- Sequential composition of `save_courses` calls, stopping at the first
failure: the harness for the append-then-load-all property. -/
def append_all : List Course → FileState → Except StorageError FileState
  | [], fs => .ok fs
  | d :: ds, fs =>
    match save_courses d fs with
    | .error e => .error e
    | .ok fs' => append_all ds fs'

/-- app.py lines 147-148 (and spec `replaceAll`): opening the file for
writing truncates it, so the new contents replace whatever was there. -/
def replace_all (courses : List Course) (_fs : FileState) : FileState :=
  .valid courses

/-- app.py line 165: `next((course for course in courses if course['code'] == code), None)`. -/
def find_by_code (code : String) (courses : List Course) : Option Course :=
  courses.find? (fun course => course.code == code)

/-- Whitespace characters removed by Python's `str.strip()` (the ASCII ones
that can occur in form input). -/
def isSpaceChar (c : Char) : Bool :=
  c == ' ' || c == '\t' || c == '\n' || c == '\r' || c == '\x0b' || c == '\x0c'

/-- Drop leading and trailing whitespace from a character list. -/
def stripChars (l : List Char) : List Char :=
  ((l.dropWhile isSpaceChar).reverse.dropWhile isSpaceChar).reverse

/-- Python `str.strip()` as used on every form field in `add_course`. -/
def pyStrip (s : String) : String :=
  ⟨stripChars s.data⟩

/-- The process-wide `defaultdict(int)` counters (`requests_count`,
`error_count`): a total map from metric name to count, default 0. -/
def Counters : Type := String → Nat

/-- One `counter[key] += 1` step on a defaultdict. -/
def bump (f : Counters) (key : String) : Counters :=
  fun k => if k = key then f key + 1 else f k

/-- Values attached as span attributes: strings, counter values, and the
clock differences used for `processing_time`. -/
inductive AttrVal where
  | s : String → AttrVal
  | n : Nat → AttrVal
  | i : Int → AttrVal
deriving DecidableEq, Repr

/-- A closed span as handed to the exporter: name, the ordered
`set_attribute` calls, and the ordered `add_event` names. -/
structure SpanRec where
  name : String
  attrs : List (String × AttrVal)
  events : List String
deriving DecidableEq, Repr

/-- Logging levels used by the app's structured logger. -/
inductive LogLevel where
  | info : LogLevel
  | warning : LogLevel
  | error : LogLevel
deriving DecidableEq, Repr

/-- One structured log record: its level and its `event` field. -/
structure LogRec where
  level : LogLevel
  event : String
deriving DecidableEq, Repr

/-- The request-context values every handler reads off `flask.request`. -/
structure ReqCtx where
  method : String
  url : String
  ip : String
deriving DecidableEq, Repr

/-- The raw form values of an `add_course` POST; `none` models an absent
field, for which `request.form.get` yields its empty-string default. -/
structure AddForm where
  code : Option String
  name : Option String
  instructor : Option String
  semester : Option String
  schedule : Option String
  classroom : Option String
  prerequisites : Option String
  grading : Option String
  description : Option String
deriving DecidableEq, Repr

/-- One field read: `request.form.get` with empty-string default, then `strip`. -/
def formGet (v : Option String) : String :=
  pyStrip (v.getD "")

/-- app.py lines 100-110: the course dict built from the submitted form. -/
def courseOfForm (f : AddForm) : Course where
  code := formGet f.code
  name := formGet f.name
  instructor := formGet f.instructor
  semester := formGet f.semester
  schedule := formGet f.schedule
  classroom := formGet f.classroom
  prerequisites := formGet f.prerequisites
  grading := formGet f.grading
  description := formGet f.description

/-- JSON values as they occur in course_catalog.json: an array of objects
whose fields are strings. -/
inductive JValue where
  | str : String → JValue
  | arr : List JValue → JValue
  | obj : List (String × JValue) → JValue

/-- Serialization of one course as `json.dump` writes it: an object with the
nine fields in the order `add_course` builds the dict. -/
def course_to_json (c : Course) : JValue :=
  .obj [("code", .str c.code), ("name", .str c.name),
        ("instructor", .str c.instructor), ("semester", .str c.semester),
        ("schedule", .str c.schedule), ("classroom", .str c.classroom),
        ("prerequisites", .str c.prerequisites), ("grading", .str c.grading),
        ("description", .str c.description)]

/-- Parsing one stored object back into a course record; fails when a field
is missing or not a string. -/
def json_to_course : JValue → Option Course
  | .obj fields =>
    match fields.lookup "code", fields.lookup "name", fields.lookup "instructor",
        fields.lookup "semester", fields.lookup "schedule", fields.lookup "classroom",
        fields.lookup "prerequisites", fields.lookup "grading",
        fields.lookup "description" with
    | some (.str code), some (.str name), some (.str instructor),
      some (.str semester), some (.str schedule), some (.str classroom),
      some (.str prerequisites), some (.str grading), some (.str description) =>
      some ⟨code, name, instructor, semester, schedule, classroom,
            prerequisites, grading, description⟩
    | _, _, _, _, _, _, _, _, _ => none
  | _ => none

/-- Serialization of the whole collection: a JSON array of course objects. -/
def courses_to_json (courses : List Course) : JValue :=
  .arr (courses.map course_to_json)

/-- Parse each element of a stored array, failing if any element fails. -/
def json_to_course_list : List JValue → Option (List Course)
  | [] => some []
  | v :: vs =>
    match json_to_course v with
    | none => none
    | some c =>
      match json_to_course_list vs with
      | none => none
      | some cs => some (c :: cs)

/-- Parsing the whole backing file: it must be a JSON array of parsable
course objects. -/
def json_to_courses : JValue → Option (List Course)
  | .arr items => json_to_course_list items
  | _ => none

/-- The value a span carries for a key, if some set_attribute call recorded
it (app.py sets each key at most once per span). -/
def SpanRec.attr (sp : SpanRec) (key : String) : Option AttrVal :=
  sp.attrs.lookup key

/-- app.py line 112: the required-fields check on the stripped values. -/
def requiredMissing (f : AddForm) : Bool :=
  (courseOfForm f).code == "" || (courseOfForm f).name == "" ||
    (courseOfForm f).instructor == ""

/-- A course none of whose fields carries leading or trailing whitespace. -/
def stripFixed (c : Course) : Prop :=
  pyStrip c.code = c.code ∧ pyStrip c.name = c.name ∧
    pyStrip c.instructor = c.instructor ∧ pyStrip c.semester = c.semester ∧
    pyStrip c.schedule = c.schedule ∧ pyStrip c.classroom = c.classroom ∧
    pyStrip c.prerequisites = c.prerequisites ∧ pyStrip c.grading = c.grading ∧
    pyStrip c.description = c.description

/-- Outcome of the course_catalog route: the rendered page, or the
unhandled exception when loading raises. -/
inductive CatalogOutcome where
  | renderCatalog : List Course → CatalogOutcome
  | storageFailure : CatalogOutcome
deriving DecidableEq, Repr

/-- Everything observable from one course_catalog invocation. -/
structure CatalogRun where
  outcome : CatalogOutcome
  span : SpanRec
  logs : List LogRec
  requests_count : Counters

/-- app.py lines 61-84: the catalog route. `t0` is the `time.time()` reading
at entry and `t1` the reading used for the processing_time attribute; the
span is closed by the context manager on every path. -/
def course_catalog (ctx : ReqCtx) (t0 t1 : Int) (rc : Counters) (fs : FileState) :
    CatalogRun :=
  let rcNew := bump rc "catalog"
  let baseAttrs : List (String × AttrVal) :=
    [("http.method", .s ctx.method), ("http.url", .s ctx.url),
     ("user.ip", .s ctx.ip), ("requests.count", .n (rcNew "catalog"))]
  match load_courses fs with
  | .error _ =>
    { outcome := .storageFailure
      span := { name := "render-course-catalog", attrs := baseAttrs,
                events := ["Loading course catalog"] }
      logs := []
      requests_count := rcNew }
  | .ok courses =>
    { outcome := .renderCatalog courses
      span := { name := "render-course-catalog",
                attrs := baseAttrs ++
                  [("total_courses", .n courses.length),
                   ("processing_time", .i (t1 - t0))],
                events := ["Loading course catalog"] }
      logs := [{ level := .info, event := "Page Rendered" }]
      requests_count := rcNew }

/-- Outcome of the add_course route. -/
inductive AddOutcome where
  | formPage : AddOutcome
  | validationError : AddOutcome
  | redirectCatalog : AddOutcome
  | storageFailure : AddOutcome
deriving DecidableEq, Repr

/-- Everything observable from one add_course invocation. -/
structure AddRun where
  outcome : AddOutcome
  span : SpanRec
  logs : List LogRec
  file : FileState
  requests_count : Counters
  error_count : Counters

/-- app.py lines 89-137: the add_course route. On GET it renders the form;
on POST it strips all fields, rejects a missing code/name/instructor
(counting the error, touching no storage), otherwise appends via
`save_courses`. `t1` is the clock reading for processing_time, set only on
the success path. -/
def add_course (ctx : ReqCtx) (t0 t1 : Int) (form : AddForm)
    (rc ec : Counters) (fs : FileState) : AddRun :=
  let rcNew := bump rc "add_course"
  let baseAttrs : List (String × AttrVal) :=
    [("http.method", .s ctx.method), ("http.url", .s ctx.url),
     ("user.ip", .s ctx.ip), ("requests.count", .n (rcNew "add_course"))]
  if ctx.method == "POST" then
    let course := courseOfForm form
    if requiredMissing form then
      let ecNew := bump ec "add_course"
      { outcome := .validationError
        span := { name := "add-course",
                  attrs := baseAttrs ++ [("error_count", .n (ecNew "add_course"))],
                  events := ["Validation failed: Missing required fields"] }
        logs := [{ level := .warning, event := "Form Validation Error" }]
        file := fs
        requests_count := rcNew
        error_count := ecNew }
    else
      match save_courses course fs with
      | .error _ =>
        { outcome := .storageFailure
          span := { name := "add-course", attrs := baseAttrs, events := [] }
          logs := []
          file := fs
          requests_count := rcNew
          error_count := ec }
      | .ok fs' =>
        { outcome := .redirectCatalog
          span := { name := "add-course",
                    attrs := baseAttrs ++ [("processing_time", .i (t1 - t0))],
                    events := ["Course saved successfully"] }
          logs := [{ level := .info, event := "Course Added" }]
          file := fs'
          requests_count := rcNew
          error_count := ec }
  else
    { outcome := .formPage
      span := { name := "add-course", attrs := baseAttrs, events := [] }
      logs := []
      file := fs
      requests_count := rcNew
      error_count := ec }

/-- Outcome of the delete_course route. -/
inductive DeleteOutcome where
  | redirectCatalog : DeleteOutcome
  | storageFailure : DeleteOutcome
deriving DecidableEq, Repr

/-- Everything observable from one delete_course invocation. The route
opens no span and emits no log record, so those are collected as lists
(both always empty). -/
structure DeleteRun where
  outcome : DeleteOutcome
  spans : List SpanRec
  logs : List LogRec
  file : FileState
deriving Repr

/-- app.py lines 142-151: load everything, keep the courses whose code
differs, write the result back. No tracer span and no logger call appear
anywhere in this handler. -/
def delete_course (code : String) (fs : FileState) : DeleteRun :=
  match load_courses fs with
  | .error _ =>
    { outcome := .storageFailure, spans := [], logs := [], file := fs }
  | .ok courses =>
    { outcome := .redirectCatalog
      spans := []
      logs := []
      file := .valid (courses.filter (fun course => course.code != code)) }

/-- Outcome of the course_details route. -/
inductive DetailsOutcome where
  | renderDetails : Course → DetailsOutcome
  | notFoundRedirect : DetailsOutcome
  | storageFailure : DetailsOutcome
deriving DecidableEq, Repr

/-- Everything observable from one course_details invocation. -/
structure DetailsRun where
  outcome : DetailsOutcome
  span : SpanRec
  logs : List LogRec
  error_count : Counters

/-- app.py lines 155-190: look the code up with a first-match linear scan;
a miss increments the error counter and logs at ERROR, a hit sets
processing_time and logs at INFO. This handler never touches
requests_count. -/
def course_details (ctx : ReqCtx) (code : String) (t0 t1 : Int)
    (ec : Counters) (fs : FileState) : DetailsRun :=
  let baseAttrs : List (String × AttrVal) :=
    [("http.method", .s ctx.method), ("http.url", .s ctx.url),
     ("user.ip", .s ctx.ip), ("course_code", .s code)]
  match load_courses fs with
  | .error _ =>
    { outcome := .storageFailure
      span := { name := "view-course-details", attrs := baseAttrs, events := [] }
      logs := []
      error_count := ec }
  | .ok courses =>
    match find_by_code code courses with
    | none =>
      let ecNew := bump ec "course_details"
      { outcome := .notFoundRedirect
        span := { name := "view-course-details",
                  attrs := baseAttrs ++ [("error_count", .n (ecNew "course_details"))],
                  events := ["Course not found"] }
        logs := [{ level := .error, event := "Course Not Found" }]
        error_count := ecNew }
    | some course =>
      { outcome := .renderDetails course
        span := { name := "view-course-details",
                  attrs := baseAttrs ++ [("processing_time", .i (t1 - t0))],
                  events := ["Course details rendered successfully"] }
        logs := [{ level := .info, event := "Course Details Rendered" }]
        error_count := ec }

/-- app.py lines 195-201: the manual-trace route records only the HTTP
method and URL on its span, adds one event, and emits no log record. -/
def manual_trace (ctx : ReqCtx) : SpanRec :=
  { name := "manual-span"
    attrs := [("http.method", .s ctx.method), ("http.url", .s ctx.url)]
    events := ["Processing request"] }

theorem append_all_valid (records : List Course) :
    ∀ cs : List Course, append_all records (.valid cs) = .ok (.valid (cs ++ records)) := by
  induction records with
  | nil => intro cs; simp [append_all]
  | cons d ds ih =>
    intro cs
    simp only [append_all, save_courses, load_courses]
    rw [ih (cs ++ [d])]
    simp

/-- C1: starting from empty storage, a strictly sequential run of appendOne
(`save_courses`) calls succeeds, and a subsequent loadAll returns exactly
the appended records in append order. -/
theorem c1_sequential_append_then_load (records : List Course) :
    ∃ fs : FileState, append_all records .absent = .ok fs ∧
      load_courses fs = .ok records := by
  cases records with
  | nil => exact ⟨.absent, rfl, rfl⟩
  | cons d ds =>
    refine ⟨.valid (d :: ds), ?_, rfl⟩
    have h := append_all_valid ds [d]
    simp only [append_all, save_courses, load_courses, List.nil_append]
    simpa using h

/-- C2: deleteByCode removes every record whose code equals the target and
keeps all others: the result is a sublist of the original (so relative
order is preserved), contains no record with the target code, and keeps
every other record with its original multiplicity. -/
theorem c2_delete_by_code (c : String) (cs : List Course) :
    ∃ res : List Course,
      (delete_course c (.valid cs)).outcome = .redirectCatalog ∧
      (delete_course c (.valid cs)).file = .valid res ∧
      res.Sublist cs ∧
      (∀ r ∈ res, r.code ≠ c) ∧
      (∀ r : Course, r.code ≠ c → res.count r = cs.count r) := by
  refine ⟨cs.filter (fun course => course.code != c), rfl, rfl,
    List.filter_sublist cs, ?_, ?_⟩
  · intro r hr
    have := List.of_mem_filter hr
    simpa using this
  · intro r hr
    exact List.count_filter (by simpa using hr)

/-- C5: loadAll on absent storage returns the empty collection rather than
an error, and it fails (with StorageUnavailable) exactly when the backing
file exists but is unreadable or corrupt. -/
theorem c5_load_absent_and_failure :
    load_courses .absent = .ok [] ∧
    (∀ fs : FileState, (∃ e, load_courses fs = .error e) ↔ fs = .corrupt) := by
  refine ⟨rfl, ?_⟩
  intro fs
  cases fs <;> simp [load_courses]
  exact ⟨.unavailable, trivial⟩

/-- C7: deleting a code that matches no stored record succeeds and leaves
the stored collection unchanged. -/
theorem c7_delete_nonexistent (code : String) (cs : List Course)
    (h : ∀ r ∈ cs, r.code ≠ code) :
    (delete_course code (.valid cs)).outcome = .redirectCatalog ∧
    (delete_course code (.valid cs)).file = .valid cs := by
  refine ⟨rfl, ?_⟩
  simp only [delete_course, load_courses]
  congr 1
  rw [List.filter_eq_self]
  intro a ha
  simpa using h a ha

/-- Witness for c7_delete_nonexistent at a concrete store and code. -/
theorem c7_delete_nonexistent_witness :
    (∀ r ∈ [({ code := "CS101", name := "Intro", instructor := "Dr. X",
               semester := "", schedule := "", classroom := "",
               prerequisites := "", grading := "", description := "" } : Course)],
        r.code ≠ "MA101") ∧
    (delete_course "MA101"
        (.valid [{ code := "CS101", name := "Intro", instructor := "Dr. X",
                   semester := "", schedule := "", classroom := "",
                   prerequisites := "", grading := "", description := "" }])).outcome =
      .redirectCatalog ∧
    (delete_course "MA101"
        (.valid [{ code := "CS101", name := "Intro", instructor := "Dr. X",
                   semester := "", schedule := "", classroom := "",
                   prerequisites := "", grading := "", description := "" }])).file =
      .valid [{ code := "CS101", name := "Intro", instructor := "Dr. X",
                semester := "", schedule := "", classroom := "",
                prerequisites := "", grading := "", description := "" }] := by
  refine ⟨by decide, ?_⟩
  exact c7_delete_nonexistent "MA101" _ (by decide)

theorem json_to_course_round_trip (c : Course) :
    json_to_course (course_to_json c) = some c := by
  cases c
  rfl

theorem json_to_course_list_round_trip (courses : List Course) :
    json_to_course_list (courses.map course_to_json) = some courses := by
  induction courses with
  | nil => rfl
  | cons c cs ih =>
    simp only [List.map_cons, json_to_course_list, json_to_course_round_trip, ih]

/-- C6: serializing a collection and parsing it back yields a field-for-field
equal collection, and a loadAll immediately after a replaceAll returns
exactly the written collection. -/
theorem c6_replace_all_round_trip (courses : List Course) (fs : FileState) :
    json_to_courses (courses_to_json courses) = some courses ∧
    load_courses (replace_all courses fs) = .ok courses := by
  exact ⟨json_to_course_list_round_trip courses, rfl⟩

theorem find_first_match (code : String) (courses : List Course) :
    (find_by_code code courses = none → ∀ r ∈ courses, r.code ≠ code) ∧
    (∀ r, find_by_code code courses = some r →
      r.code = code ∧
        ∃ pre post, courses = pre ++ r :: post ∧ ∀ x ∈ pre, x.code ≠ code) := by
  induction courses with
  | nil =>
    constructor
    · intro _ r hr; cases hr
    · intro r hr; cases hr
  | cons c cs ih =>
    by_cases hc : c.code = code
    · constructor
      · intro hnone
        exfalso
        simp [find_by_code, List.find?, hc] at hnone
      · intro r hr
        simp only [find_by_code, List.find?] at hr
        rw [show (c.code == code) = true by simpa using hc] at hr
        cases hr
        exact ⟨hc, [], cs, rfl, by intro x hx; cases hx⟩
    · have hbeq : (c.code == code) = false := by simpa using hc
      constructor
      · intro hnone r hr
        rcases List.mem_cons.mp hr with rfl | hr
        · exact hc
        · apply ih.1 _ r hr
          simpa [find_by_code, List.find?, hbeq] using hnone
      · intro r hr
        simp only [find_by_code, List.find?, hbeq] at hr
        obtain ⟨hcode, pre, post, hsplit, hpre⟩ := ih.2 r hr
        refine ⟨hcode, c :: pre, post, by rw [hsplit]; rfl, ?_⟩
        intro x hx
        rcases List.mem_cons.mp hx with rfl | hx
        · exact hc
        · exact hpre x hx

/-- C8: findByCode scans the loaded collection linearly: a miss means no
stored record has the code, and a hit returns a record with that code whose
earlier neighbours all miss it (first match wins); course_details renders
exactly that first match. -/
theorem c8_find_by_code_first_match (code : String) (courses : List Course) :
    (find_by_code code courses = none → ∀ r ∈ courses, r.code ≠ code) ∧
    (∀ r, find_by_code code courses = some r →
      r.code = code ∧
        ∃ pre post, courses = pre ++ r :: post ∧ ∀ x ∈ pre, x.code ≠ code) ∧
    (∀ ctx t0 t1 ec r, find_by_code code courses = some r →
      (course_details ctx code t0 t1 ec (.valid courses)).outcome =
        .renderDetails r) := by
  refine ⟨(find_first_match code courses).1, (find_first_match code courses).2, ?_⟩
  intro ctx t0 t1 ec r hr
  simp [course_details, load_courses, hr]

/-- Witness for c8_find_by_code_first_match: a duplicate-code store where
the earliest match is returned and rendered. -/
theorem c8_find_by_code_first_match_witness :
    (find_by_code "CS101"
        [⟨"CS101", "Intro", "Dr. X", "", "", "", "", "", ""⟩,
         ⟨"CS101", "Clone", "Dr. Y", "", "", "", "", "", ""⟩] =
      some ⟨"CS101", "Intro", "Dr. X", "", "", "", "", "", ""⟩) ∧
    (⟨"CS101", "Intro", "Dr. X", "", "", "", "", "", ""⟩ : Course).code = "CS101" ∧
    (course_details ⟨"GET", "http://localhost:5000/course/CS101", "127.0.0.1"⟩
        "CS101" 0 1 (fun _ => 0)
        (.valid [⟨"CS101", "Intro", "Dr. X", "", "", "", "", "", ""⟩,
                 ⟨"CS101", "Clone", "Dr. Y", "", "", "", "", "", ""⟩])).outcome =
      .renderDetails ⟨"CS101", "Intro", "Dr. X", "", "", "", "", "", ""⟩ := by
  have hfind : find_by_code "CS101"
      [⟨"CS101", "Intro", "Dr. X", "", "", "", "", "", ""⟩,
       ⟨"CS101", "Clone", "Dr. Y", "", "", "", "", "", ""⟩] =
      some ⟨"CS101", "Intro", "Dr. X", "", "", "", "", "", ""⟩ := by decide
  refine ⟨hfind, ?_, ?_⟩
  · exact ((c8_find_by_code_first_match "CS101" _).2.1 _ hfind).1
  · exact (c8_find_by_code_first_match "CS101" _).2.2 _ 0 1 (fun _ => 0) _ hfind

/-- C3: an add-course POST with a missing required field (code, name, or
instructor empty after stripping) fails with the validation error, leaves
the backing storage untouched, increments the add_course error counter by
exactly one while leaving every other error counter unchanged, and logs one
WARNING record. -/
theorem c3_validation_failure (ctx : ReqCtx) (t0 t1 : Int) (form : AddForm)
    (rc ec : Counters) (fs : FileState)
    (hm : ctx.method = "POST")
    (hmiss : (courseOfForm form).code = "" ∨ (courseOfForm form).name = "" ∨
      (courseOfForm form).instructor = "") :
    (add_course ctx t0 t1 form rc ec fs).outcome = .validationError ∧
    (add_course ctx t0 t1 form rc ec fs).file = fs ∧
    (add_course ctx t0 t1 form rc ec fs).error_count "add_course" =
      ec "add_course" + 1 ∧
    (∀ k, k ≠ "add_course" →
      (add_course ctx t0 t1 form rc ec fs).error_count k = ec k) ∧
    (add_course ctx t0 t1 form rc ec fs).logs =
      [{ level := .warning, event := "Form Validation Error" }] := by
  have hmissb : requiredMissing form = true := by
    rcases hmiss with h | h | h <;> simp [requiredMissing, h]
  simp only [add_course, hm]
  simp [hmissb, bump]
  intro k hk hk2
  exact absurd hk2 hk

/-- Witness for c3_validation_failure: a POST whose name field is only
whitespace. -/
theorem c3_validation_failure_witness :
    ((⟨"POST", "http://localhost:5000/add_course", "127.0.0.1"⟩ : ReqCtx).method =
      "POST") ∧
    (courseOfForm ⟨some "CS101", some "   ", some "Dr. X",
        none, none, none, none, none, none⟩).name = "" ∧
    (add_course ⟨"POST", "http://localhost:5000/add_course", "127.0.0.1"⟩ 0 1
        ⟨some "CS101", some "   ", some "Dr. X", none, none, none, none, none, none⟩
        (fun _ => 0) (fun _ => 0) .absent).outcome = .validationError ∧
    (add_course ⟨"POST", "http://localhost:5000/add_course", "127.0.0.1"⟩ 0 1
        ⟨some "CS101", some "   ", some "Dr. X", none, none, none, none, none, none⟩
        (fun _ => 0) (fun _ => 0) .absent).file = .absent ∧
    (add_course ⟨"POST", "http://localhost:5000/add_course", "127.0.0.1"⟩ 0 1
        ⟨some "CS101", some "   ", some "Dr. X", none, none, none, none, none, none⟩
        (fun _ => 0) (fun _ => 0) .absent).error_count "add_course" = 0 + 1 := by
  have hname : (courseOfForm ⟨some "CS101", some "   ", some "Dr. X",
      none, none, none, none, none, none⟩).name = "" := by decide
  have h := c3_validation_failure
    ⟨"POST", "http://localhost:5000/add_course", "127.0.0.1"⟩ 0 1
    ⟨some "CS101", some "   ", some "Dr. X", none, none, none, none, none, none⟩
    (fun _ => 0) (fun _ => 0) .absent rfl (Or.inr (Or.inl hname))
  exact ⟨rfl, hname, h.1, h.2.1, h.2.2.1⟩

theorem dropWhile_head_not {p : Char → Bool} :
    ∀ {l : List Char} {x : Char} {xs : List Char},
      List.dropWhile p l = x :: xs → p x = false := by
  intro l
  induction l with
  | nil => intro x xs h; simp [List.dropWhile] at h
  | cons c cl ih =>
    intro x xs h
    rw [List.dropWhile_cons] at h
    by_cases hc : p c
    · rw [if_pos hc] at h
      exact ih h
    · rw [if_neg hc] at h
      cases h
      simpa using hc

theorem dropWhile_idem (p : Char → Bool) (l : List Char) :
    (l.dropWhile p).dropWhile p = l.dropWhile p := by
  cases h : l.dropWhile p with
  | nil => rfl
  | cons x xs =>
    have hx := dropWhile_head_not h
    rw [List.dropWhile_cons, if_neg (by simp [hx])]

theorem stripChars_idem (l : List Char) :
    stripChars (stripChars l) = stripChars l := by
  have hD : ((l.dropWhile isSpaceChar).reverse.dropWhile isSpaceChar).dropWhile
      isSpaceChar = (l.dropWhile isSpaceChar).reverse.dropWhile isSpaceChar :=
    dropWhile_idem _ _
  have hpre : stripChars l <+: l.dropWhile isSpaceChar := by
    have hsuf :=
      List.dropWhile_suffix (l := (l.dropWhile isSpaceChar).reverse) isSpaceChar
    have hp := List.reverse_prefix.mpr hsuf
    simpa [stripChars] using hp
  have hB : (stripChars l).dropWhile isSpaceChar = stripChars l := by
    cases hsc : stripChars l with
    | nil => rfl
    | cons b bs =>
      obtain ⟨t, ht⟩ := hpre
      rw [hsc] at ht
      have hsplit : l.dropWhile isSpaceChar = b :: (bs ++ t) := by
        rw [← ht]; rfl
      have hb := dropWhile_head_not hsplit
      rw [List.dropWhile_cons, if_neg (by simp [hb])]
  show (((stripChars l).dropWhile isSpaceChar).reverse.dropWhile
      isSpaceChar).reverse = stripChars l
  rw [hB]
  have hrev : (stripChars l).reverse
      = (l.dropWhile isSpaceChar).reverse.dropWhile isSpaceChar := by
    simp [stripChars]
  rw [hrev, hD]
  simp [stripChars]

theorem stripChars_all_space {l : List Char}
    (h : ∀ c ∈ l, isSpaceChar c = true) : stripChars l = [] := by
  have h1 : l.dropWhile isSpaceChar = [] := List.dropWhile_eq_nil_iff.mpr h
  simp [stripChars, h1]

theorem pyStrip_idem (s : String) : pyStrip (pyStrip s) = pyStrip s := by
  simp only [pyStrip]
  rw [stripChars_idem]

theorem pyStrip_eq_empty_of_all_space {s : String}
    (h : ∀ c ∈ s.data, isSpaceChar c = true) : pyStrip s = "" := by
  simp only [pyStrip]
  rw [stripChars_all_space h]

/-- C10: add_course strips every submitted field before anything else: a
required field consisting only of whitespace is treated as missing and
triggers the validation failure, and on success the stored record has no
leading or trailing whitespace in any of its nine fields. -/
theorem c10_strip_before_validation_and_storage :
    (∀ (ctx : ReqCtx) (t0 t1 : Int) (form : AddForm) (rc ec : Counters)
        (fs : FileState), ctx.method = "POST" →
      ((∀ c ∈ (form.code.getD "").data, isSpaceChar c = true) ∨
       (∀ c ∈ (form.name.getD "").data, isSpaceChar c = true) ∨
       (∀ c ∈ (form.instructor.getD "").data, isSpaceChar c = true)) →
      (add_course ctx t0 t1 form rc ec fs).outcome = .validationError) ∧
    (∀ (ctx : ReqCtx) (t0 t1 : Int) (form : AddForm) (rc ec : Counters)
        (fs : FileState),
      (add_course ctx t0 t1 form rc ec fs).outcome = .redirectCatalog →
      ∃ prev, load_courses fs = .ok prev ∧
        (add_course ctx t0 t1 form rc ec fs).file =
          .valid (prev ++ [courseOfForm form]) ∧
        stripFixed (courseOfForm form)) := by
  constructor
  · intro ctx t0 t1 form rc ec fs hm hws
    have hmissb : requiredMissing form = true := by
      rcases hws with h | h | h
      · have : (courseOfForm form).code = "" := pyStrip_eq_empty_of_all_space h
        simp [requiredMissing, this]
      · have : (courseOfForm form).name = "" := pyStrip_eq_empty_of_all_space h
        simp [requiredMissing, this]
      · have : (courseOfForm form).instructor = "" :=
          pyStrip_eq_empty_of_all_space h
        simp [requiredMissing, this]
    simp [add_course, hm, hmissb]
  · intro ctx t0 t1 form rc ec fs hout
    have hfix : stripFixed (courseOfForm form) := by
      simp [stripFixed, courseOfForm, formGet, pyStrip_idem]
    by_cases hm : ctx.method == "POST"
    · by_cases hmissb : requiredMissing form
      · simp [add_course, hm, hmissb] at hout
      · cases hload : load_courses fs with
        | error e => simp [add_course, hm, hmissb, save_courses, hload] at hout
        | ok prev =>
          refine ⟨prev, rfl, ?_, hfix⟩
          simp [add_course, hm, hmissb, save_courses, hload]
    · simp [add_course, hm] at hout

/-- Witness for c10_strip_before_validation_and_storage: a whitespace-only
instructor field is rejected, and a successful POST with padded fields
stores the stripped record. -/
theorem c10_strip_witness :
    ((⟨"POST", "http://localhost:5000/add_course", "127.0.0.1"⟩ : ReqCtx).method =
      "POST") ∧
    (∀ c ∈ (((⟨some "CS101", some "Intro", some " \t ",
        none, none, none, none, none, none⟩ : AddForm).instructor).getD "").data,
      isSpaceChar c = true) ∧
    (add_course ⟨"POST", "http://localhost:5000/add_course", "127.0.0.1"⟩ 0 1
        ⟨some "CS101", some "Intro", some " \t ", none, none, none, none, none, none⟩
        (fun _ => 0) (fun _ => 0) .absent).outcome = .validationError ∧
    (add_course ⟨"POST", "http://localhost:5000/add_course", "127.0.0.1"⟩ 0 1
        ⟨some " CS101 ", some "Intro", some "Dr. X", none, none, none, none, none,
          none⟩ (fun _ => 0) (fun _ => 0) .absent).outcome = .redirectCatalog ∧
    (∃ prev, load_courses .absent = .ok prev ∧
      (add_course ⟨"POST", "http://localhost:5000/add_course", "127.0.0.1"⟩ 0 1
          ⟨some " CS101 ", some "Intro", some "Dr. X", none, none, none, none,
            none, none⟩ (fun _ => 0) (fun _ => 0) .absent).file =
        .valid (prev ++ [courseOfForm ⟨some " CS101 ", some "Intro", some "Dr. X",
          none, none, none, none, none, none⟩]) ∧
      stripFixed (courseOfForm ⟨some " CS101 ", some "Intro", some "Dr. X",
        none, none, none, none, none, none⟩)) := by
  have hws : ∀ c ∈ (((⟨some "CS101", some "Intro", some " \t ",
      none, none, none, none, none, none⟩ : AddForm).instructor).getD "").data,
      isSpaceChar c = true := by decide
  have hsucc : (add_course ⟨"POST", "http://localhost:5000/add_course",
      "127.0.0.1"⟩ 0 1 ⟨some " CS101 ", some "Intro", some "Dr. X", none, none,
      none, none, none, none⟩ (fun _ => 0) (fun _ => 0) .absent).outcome =
      .redirectCatalog := by decide
  refine ⟨rfl, hws, ?_, hsucc, ?_⟩
  · exact c10_strip_before_validation_and_storage.1 _ 0 1 _ (fun _ => 0)
      (fun _ => 0) .absent rfl (Or.inr (Or.inr hws))
  · exact c10_strip_before_validation_and_storage.2 _ 0 1 _ (fun _ => 0)
      (fun _ => 0) .absent hsucc

/-- C4 counterexample: the delete operation, run successfully at a concrete
input, produces no span and no log record at all, contradicting the claim
that every operation produces exactly one of each. -/
theorem c4_delete_no_telemetry_counterexample :
    (delete_course "CS101" (.valid [])).outcome = .redirectCatalog ∧
    (delete_course "CS101" (.valid [])).spans = [] ∧
    (delete_course "CS101" (.valid [])).logs = [] := by
  exact ⟨rfl, rfl, rfl⟩

/-- C4 amended: the instrumented operations (catalog, add-course,
course-details, manual-trace) each produce exactly one closed span, but the
delete operation produces no span and no log record; exactly one log record
is produced on the catalog success path, the add-course POST success and
validation-failure paths, and the course-details success and not-found
paths, while storage-failure paths, the add-course GET path, and
manual-trace produce none; the elapsed-time attribute is present at close
only on the catalog, add-course, and course-details success paths, where it
is non-negative whenever the closing clock reading is not below the opening
one. -/
theorem c4_amended_one_span_logs_elapsed :
    (∀ code fs, (delete_course code fs).spans = [] ∧
      (delete_course code fs).logs = []) ∧
    (∀ ctx t0 t1 rc fs,
      (course_catalog ctx t0 t1 rc fs).span.name = "render-course-catalog" ∧
      ((∃ cs, load_courses fs = .ok cs) →
        (course_catalog ctx t0 t1 rc fs).logs.length = 1 ∧
        ∃ d : Int, (course_catalog ctx t0 t1 rc fs).span.attr "processing_time"
            = some (.i d) ∧ (t0 ≤ t1 → 0 ≤ d)) ∧
      (load_courses fs = .error .unavailable →
        (course_catalog ctx t0 t1 rc fs).logs = [] ∧
        (course_catalog ctx t0 t1 rc fs).span.attr "processing_time" = none)) ∧
    (∀ ctx t0 t1 form rc ec fs,
      (add_course ctx t0 t1 form rc ec fs).span.name = "add-course" ∧
      ((add_course ctx t0 t1 form rc ec fs).outcome = .redirectCatalog →
        (add_course ctx t0 t1 form rc ec fs).logs.length = 1 ∧
        ∃ d : Int, (add_course ctx t0 t1 form rc ec fs).span.attr
            "processing_time" = some (.i d) ∧ (t0 ≤ t1 → 0 ≤ d)) ∧
      ((add_course ctx t0 t1 form rc ec fs).outcome = .validationError →
        (add_course ctx t0 t1 form rc ec fs).logs.length = 1 ∧
        (add_course ctx t0 t1 form rc ec fs).span.attr "processing_time" =
          none) ∧
      ((add_course ctx t0 t1 form rc ec fs).outcome = .formPage ∨
          (add_course ctx t0 t1 form rc ec fs).outcome = .storageFailure →
        (add_course ctx t0 t1 form rc ec fs).logs = [] ∧
        (add_course ctx t0 t1 form rc ec fs).span.attr "processing_time" =
          none)) ∧
    (∀ ctx code t0 t1 ec fs,
      (course_details ctx code t0 t1 ec fs).span.name = "view-course-details" ∧
      (∀ r, (course_details ctx code t0 t1 ec fs).outcome = .renderDetails r →
        (course_details ctx code t0 t1 ec fs).logs.length = 1 ∧
        ∃ d : Int, (course_details ctx code t0 t1 ec fs).span.attr
            "processing_time" = some (.i d) ∧ (t0 ≤ t1 → 0 ≤ d)) ∧
      ((course_details ctx code t0 t1 ec fs).outcome = .notFoundRedirect →
        (course_details ctx code t0 t1 ec fs).logs.length = 1 ∧
        (course_details ctx code t0 t1 ec fs).span.attr "processing_time" =
          none) ∧
      ((course_details ctx code t0 t1 ec fs).outcome = .storageFailure →
        (course_details ctx code t0 t1 ec fs).logs = [] ∧
        (course_details ctx code t0 t1 ec fs).span.attr "processing_time" =
          none)) ∧
    (∀ ctx, (manual_trace ctx).name = "manual-span" ∧
      (manual_trace ctx).attr "processing_time" = none) := by
  refine ⟨?_, ?_, ?_, ?_, ?_⟩
  · intro code fs
    cases fs <;> exact ⟨rfl, rfl⟩
  · intro ctx t0 t1 rc fs
    refine ⟨?_, ?_, ?_⟩
    · cases fs <;> rfl
    · rintro ⟨cs, hload⟩
      refine ⟨?_, t1 - t0, ?_, fun h => by simpa using h⟩
      · cases fs <;> simp_all [course_catalog, load_courses]
      · cases fs <;> simp_all [course_catalog, load_courses, SpanRec.attr,
          List.lookup]
    · intro hload
      cases fs <;> simp_all [course_catalog, load_courses, SpanRec.attr,
        List.lookup]
  · intro ctx t0 t1 form rc ec fs
    refine ⟨?_, ?_, ?_, ?_⟩
    · by_cases hm : ctx.method == "POST"
      · by_cases hmiss : requiredMissing form
        · simp [add_course, hm, hmiss]
        · cases hload : load_courses fs <;>
            simp [add_course, hm, hmiss, save_courses, hload]
      · simp [add_course, hm]
    · intro hout
      by_cases hm : ctx.method == "POST"
      · by_cases hmiss : requiredMissing form
        · simp [add_course, hm, hmiss] at hout
        · cases hload : load_courses fs with
          | error e =>
            simp [add_course, hm, hmiss, save_courses, hload] at hout
          | ok prev =>
            refine ⟨?_, t1 - t0, ?_, fun h => by simpa using h⟩ <;>
              simp [add_course, hm, hmiss, save_courses, hload, SpanRec.attr,
                List.lookup]
      · simp [add_course, hm] at hout
    · intro hout
      by_cases hm : ctx.method == "POST"
      · by_cases hmiss : requiredMissing form
        · constructor <;>
            simp [add_course, hm, hmiss, SpanRec.attr, List.lookup]
        · cases hload : load_courses fs <;>
            simp [add_course, hm, hmiss, save_courses, hload] at hout
      · simp [add_course, hm] at hout
    · intro hout
      by_cases hm : ctx.method == "POST"
      · by_cases hmiss : requiredMissing form
        · simp [add_course, hm, hmiss] at hout
        · cases hload : load_courses fs with
          | error e =>
            constructor <;>
              simp [add_course, hm, hmiss, save_courses, hload, SpanRec.attr,
                List.lookup]
          | ok prev =>
            simp [add_course, hm, hmiss, save_courses, hload] at hout
      · constructor <;> simp [add_course, hm, SpanRec.attr, List.lookup]
  · intro ctx code t0 t1 ec fs
    refine ⟨?_, ?_, ?_, ?_⟩
    · cases fs <;> simp [course_details, load_courses] <;>
        cases find_by_code code _ <;> rfl
    · intro r hout
      cases fs with
      | absent =>
        simp [course_details, load_courses, find_by_code, List.find?] at hout
      | corrupt => simp [course_details, load_courses] at hout
      | valid cs =>
        cases hfind : find_by_code code cs with
        | none => simp [course_details, load_courses, hfind] at hout
        | some c =>
          refine ⟨?_, t1 - t0, ?_, fun h => by simpa using h⟩ <;>
            simp [course_details, load_courses, hfind, SpanRec.attr, List.lookup]
    · intro hout
      cases fs with
      | absent =>
        cases hfind : find_by_code code ([] : List Course) with
        | none =>
          constructor <;>
            simp [course_details, load_courses, hfind, SpanRec.attr, List.lookup]
        | some c => simp [course_details, load_courses, hfind] at hout
      | corrupt => simp [course_details, load_courses] at hout
      | valid cs =>
        cases hfind : find_by_code code cs with
        | none =>
          constructor <;>
            simp [course_details, load_courses, hfind, SpanRec.attr, List.lookup]
        | some c => simp [course_details, load_courses, hfind] at hout
    · intro hout
      cases fs with
      | absent =>
        simp [course_details, load_courses, find_by_code, List.find?] at hout
      | corrupt =>
        constructor <;>
          simp [course_details, load_courses, SpanRec.attr, List.lookup]
      | valid cs =>
        cases hfind : find_by_code code cs <;>
          simp [course_details, load_courses, hfind] at hout
  · intro ctx
    exact ⟨rfl, by simp [manual_trace, SpanRec.attr, List.lookup]⟩

/-- Witness for c4_amended_one_span_logs_elapsed: every per-path statement
instantiated at concrete requests, stores, and clock readings. -/
theorem c4_amended_witness :
    ((delete_course "CS101" (.valid [])).spans = [] ∧
      (delete_course "CS101" (.valid [])).logs = []) ∧
    ((course_catalog ⟨"GET", "http://h/catalog", "127.0.0.1"⟩ 0 1 (fun _ => 0)
        (.valid [])).logs.length = 1 ∧
      ∃ d : Int, (course_catalog ⟨"GET", "http://h/catalog", "127.0.0.1"⟩ 0 1
          (fun _ => 0) (.valid [])).span.attr "processing_time" = some (.i d) ∧
        ((0 : Int) ≤ 1 → 0 ≤ d)) ∧
    ((course_catalog ⟨"GET", "http://h/catalog", "127.0.0.1"⟩ 0 1 (fun _ => 0)
        .corrupt).logs = [] ∧
      (course_catalog ⟨"GET", "http://h/catalog", "127.0.0.1"⟩ 0 1 (fun _ => 0)
        .corrupt).span.attr "processing_time" = none) ∧
    ((add_course ⟨"POST", "http://h/add_course", "127.0.0.1"⟩ 0 1
        ⟨some "CS101", some "Intro", some "Dr. X", none, none, none, none, none,
          none⟩ (fun _ => 0) (fun _ => 0) .absent).logs.length = 1 ∧
      ∃ d : Int, (add_course ⟨"POST", "http://h/add_course", "127.0.0.1"⟩ 0 1
          ⟨some "CS101", some "Intro", some "Dr. X", none, none, none, none,
            none, none⟩ (fun _ => 0) (fun _ => 0) .absent).span.attr
          "processing_time" = some (.i d) ∧ ((0 : Int) ≤ 1 → 0 ≤ d)) ∧
    ((add_course ⟨"POST", "http://h/add_course", "127.0.0.1"⟩ 0 1
        ⟨none, some "Intro", some "Dr. X", none, none, none, none, none, none⟩
        (fun _ => 0) (fun _ => 0) .absent).logs.length = 1 ∧
      (add_course ⟨"POST", "http://h/add_course", "127.0.0.1"⟩ 0 1
        ⟨none, some "Intro", some "Dr. X", none, none, none, none, none, none⟩
        (fun _ => 0) (fun _ => 0) .absent).span.attr "processing_time" = none) ∧
    ((add_course ⟨"GET", "http://h/add_course", "127.0.0.1"⟩ 0 1
        ⟨some "CS101", some "Intro", some "Dr. X", none, none, none, none, none,
          none⟩ (fun _ => 0) (fun _ => 0) .absent).logs = [] ∧
      (add_course ⟨"GET", "http://h/add_course", "127.0.0.1"⟩ 0 1
        ⟨some "CS101", some "Intro", some "Dr. X", none, none, none, none, none,
          none⟩ (fun _ => 0) (fun _ => 0) .absent).span.attr "processing_time" =
        none) ∧
    ((add_course ⟨"POST", "http://h/add_course", "127.0.0.1"⟩ 0 1
        ⟨some "CS101", some "Intro", some "Dr. X", none, none, none, none, none,
          none⟩ (fun _ => 0) (fun _ => 0) .corrupt).logs = [] ∧
      (add_course ⟨"POST", "http://h/add_course", "127.0.0.1"⟩ 0 1
        ⟨some "CS101", some "Intro", some "Dr. X", none, none, none, none, none,
          none⟩ (fun _ => 0) (fun _ => 0) .corrupt).span.attr "processing_time" =
        none) ∧
    ((course_details ⟨"GET", "http://h/course/CS101", "127.0.0.1"⟩ "CS101" 0 1
        (fun _ => 0)
        (.valid [⟨"CS101", "Intro", "Dr. X", "", "", "", "", "", ""⟩])).logs.length
        = 1 ∧
      ∃ d : Int, (course_details ⟨"GET", "http://h/course/CS101", "127.0.0.1"⟩
          "CS101" 0 1 (fun _ => 0)
          (.valid [⟨"CS101", "Intro", "Dr. X", "", "", "", "", "", ""⟩])).span.attr
          "processing_time" = some (.i d) ∧ ((0 : Int) ≤ 1 → 0 ≤ d)) ∧
    ((course_details ⟨"GET", "http://h/course/ZZ999", "127.0.0.1"⟩ "ZZ999" 0 1
        (fun _ => 0) (.valid [])).logs.length = 1 ∧
      (course_details ⟨"GET", "http://h/course/ZZ999", "127.0.0.1"⟩ "ZZ999" 0 1
        (fun _ => 0) (.valid [])).span.attr "processing_time" = none) ∧
    ((course_details ⟨"GET", "http://h/course/CS101", "127.0.0.1"⟩ "CS101" 0 1
        (fun _ => 0) .corrupt).logs = [] ∧
      (course_details ⟨"GET", "http://h/course/CS101", "127.0.0.1"⟩ "CS101" 0 1
        (fun _ => 0) .corrupt).span.attr "processing_time" = none) ∧
    ((manual_trace ⟨"GET", "http://h/manual-trace", "127.0.0.1"⟩).name =
        "manual-span" ∧
      (manual_trace ⟨"GET", "http://h/manual-trace", "127.0.0.1"⟩).attr
        "processing_time" = none) := by
  have H := c4_amended_one_span_logs_elapsed
  refine ⟨H.1 "CS101" (.valid []), ?_, ?_, ?_, ?_, ?_, ?_, ?_, ?_, ?_, ?_⟩
  · exact (H.2.1 ⟨"GET", "http://h/catalog", "127.0.0.1"⟩ 0 1 (fun _ => 0)
      (.valid [])).2.1 ⟨[], rfl⟩
  · exact (H.2.1 ⟨"GET", "http://h/catalog", "127.0.0.1"⟩ 0 1 (fun _ => 0)
      .corrupt).2.2 rfl
  · exact (H.2.2.1 ⟨"POST", "http://h/add_course", "127.0.0.1"⟩ 0 1
      ⟨some "CS101", some "Intro", some "Dr. X", none, none, none, none, none,
        none⟩ (fun _ => 0) (fun _ => 0) .absent).2.1 (by decide)
  · exact (H.2.2.1 ⟨"POST", "http://h/add_course", "127.0.0.1"⟩ 0 1
      ⟨none, some "Intro", some "Dr. X", none, none, none, none, none, none⟩
      (fun _ => 0) (fun _ => 0) .absent).2.2.1 (by decide)
  · exact (H.2.2.1 ⟨"GET", "http://h/add_course", "127.0.0.1"⟩ 0 1
      ⟨some "CS101", some "Intro", some "Dr. X", none, none, none, none, none,
        none⟩ (fun _ => 0) (fun _ => 0) .absent).2.2.2 (Or.inl (by decide))
  · exact (H.2.2.1 ⟨"POST", "http://h/add_course", "127.0.0.1"⟩ 0 1
      ⟨some "CS101", some "Intro", some "Dr. X", none, none, none, none, none,
        none⟩ (fun _ => 0) (fun _ => 0) .corrupt).2.2.2 (Or.inr (by decide))
  · exact (H.2.2.2.1 ⟨"GET", "http://h/course/CS101", "127.0.0.1"⟩ "CS101" 0 1
      (fun _ => 0)
      (.valid [⟨"CS101", "Intro", "Dr. X", "", "", "", "", "", ""⟩])).2.1
      ⟨"CS101", "Intro", "Dr. X", "", "", "", "", "", ""⟩ (by decide)
  · exact (H.2.2.2.1 ⟨"GET", "http://h/course/ZZ999", "127.0.0.1"⟩ "ZZ999" 0 1
      (fun _ => 0) (.valid [])).2.2.1 (by decide)
  · exact (H.2.2.2.1 ⟨"GET", "http://h/course/CS101", "127.0.0.1"⟩ "CS101" 0 1
      (fun _ => 0) .corrupt).2.2.2 rfl
  · exact H.2.2.2.2 ⟨"GET", "http://h/manual-trace", "127.0.0.1"⟩

/-- C9 counterexample: the manual-trace span at a concrete request carries
no caller-IP attribute and no counter attributes, and the course-details
span carries no request-counter attribute, contradicting the claim that
every instrumented operation records all of them. -/
theorem c9_missing_span_attrs_counterexample :
    (manual_trace ⟨"GET", "http://localhost:5000/manual-trace",
      "127.0.0.1"⟩).attr "user.ip" = none ∧
    (manual_trace ⟨"GET", "http://localhost:5000/manual-trace",
      "127.0.0.1"⟩).attr "requests.count" = none ∧
    (manual_trace ⟨"GET", "http://localhost:5000/manual-trace",
      "127.0.0.1"⟩).attr "error_count" = none ∧
    (course_details ⟨"GET", "http://localhost:5000/course/CS101", "127.0.0.1"⟩
      "CS101" 0 1 (fun _ => 0)
      (.valid [⟨"CS101", "Intro", "Dr. X", "", "", "", "", "", ""⟩])).span.attr
      "requests.count" = none := by
  refine ⟨rfl, rfl, rfl, ?_⟩
  simp [course_details, load_courses, find_by_code, List.find?, SpanRec.attr,
    List.lookup]

/-- C9 amended: the catalog and add-course spans record the HTTP method,
URL, caller IP, and the request counter (add-course additionally records
the error counter on validation failure); the course-details span records
method, URL, and IP but never a request counter, recording the error
counter only on the not-found path; the manual-trace span records only the
method and URL, with no caller IP and no counters. -/
theorem c9_amended_span_attrs :
    (∀ ctx t0 t1 rc fs,
      (course_catalog ctx t0 t1 rc fs).span.attr "http.method" =
        some (.s ctx.method) ∧
      (course_catalog ctx t0 t1 rc fs).span.attr "http.url" =
        some (.s ctx.url) ∧
      (course_catalog ctx t0 t1 rc fs).span.attr "user.ip" =
        some (.s ctx.ip) ∧
      (course_catalog ctx t0 t1 rc fs).span.attr "requests.count" =
        some (.n (rc "catalog" + 1))) ∧
    (∀ ctx t0 t1 form rc ec fs,
      (add_course ctx t0 t1 form rc ec fs).span.attr "http.method" =
        some (.s ctx.method) ∧
      (add_course ctx t0 t1 form rc ec fs).span.attr "http.url" =
        some (.s ctx.url) ∧
      (add_course ctx t0 t1 form rc ec fs).span.attr "user.ip" =
        some (.s ctx.ip) ∧
      (add_course ctx t0 t1 form rc ec fs).span.attr "requests.count" =
        some (.n (rc "add_course" + 1)) ∧
      ((add_course ctx t0 t1 form rc ec fs).outcome = .validationError →
        (add_course ctx t0 t1 form rc ec fs).span.attr "error_count" =
          some (.n (ec "add_course" + 1)))) ∧
    (∀ ctx code t0 t1 ec fs,
      (course_details ctx code t0 t1 ec fs).span.attr "http.method" =
        some (.s ctx.method) ∧
      (course_details ctx code t0 t1 ec fs).span.attr "http.url" =
        some (.s ctx.url) ∧
      (course_details ctx code t0 t1 ec fs).span.attr "user.ip" =
        some (.s ctx.ip) ∧
      (course_details ctx code t0 t1 ec fs).span.attr "requests.count" =
        none ∧
      ((course_details ctx code t0 t1 ec fs).outcome = .notFoundRedirect →
        (course_details ctx code t0 t1 ec fs).span.attr "error_count" =
          some (.n (ec "course_details" + 1)))) ∧
    (∀ ctx,
      (manual_trace ctx).attr "http.method" = some (.s ctx.method) ∧
      (manual_trace ctx).attr "http.url" = some (.s ctx.url) ∧
      (manual_trace ctx).attr "user.ip" = none ∧
      (manual_trace ctx).attr "requests.count" = none ∧
      (manual_trace ctx).attr "error_count" = none) := by
  refine ⟨?_, ?_, ?_, ?_⟩
  · intro ctx t0 t1 rc fs
    cases fs <;>
      simp [course_catalog, load_courses, SpanRec.attr, List.lookup, bump]
  · intro ctx t0 t1 form rc ec fs
    by_cases hm : ctx.method == "POST"
    · by_cases hmiss : requiredMissing form
      · refine ⟨?_, ?_, ?_, ?_, fun _ => ?_⟩ <;>
          simp [add_course, hm, hmiss, SpanRec.attr, List.lookup, bump]
      · cases hload : load_courses fs with
        | error e =>
          refine ⟨?_, ?_, ?_, ?_, fun hout => ?_⟩ <;>
            simp [add_course, hm, hmiss, save_courses, hload, SpanRec.attr,
              List.lookup, bump]
          · simp [add_course, hm, hmiss, save_courses, hload] at hout
        | ok prev =>
          refine ⟨?_, ?_, ?_, ?_, fun hout => ?_⟩ <;>
            simp [add_course, hm, hmiss, save_courses, hload, SpanRec.attr,
              List.lookup, bump]
          · simp [add_course, hm, hmiss, save_courses, hload] at hout
    · refine ⟨?_, ?_, ?_, ?_, fun hout => ?_⟩ <;>
        simp [add_course, hm, SpanRec.attr, List.lookup, bump]
      · simp [add_course, hm] at hout
  · intro ctx code t0 t1 ec fs
    cases fs with
    | absent =>
      refine ⟨?_, ?_, ?_, ?_, fun _ => ?_⟩ <;>
        simp [course_details, load_courses, find_by_code, List.find?,
          SpanRec.attr, List.lookup, bump]
    | corrupt =>
      refine ⟨?_, ?_, ?_, ?_, fun hout => ?_⟩ <;>
        simp [course_details, load_courses, SpanRec.attr, List.lookup, bump]
      · simp [course_details, load_courses] at hout
    | valid cs =>
      cases hfind : find_by_code code cs with
      | none =>
        refine ⟨?_, ?_, ?_, ?_, fun _ => ?_⟩ <;>
          simp [course_details, load_courses, hfind, SpanRec.attr, List.lookup,
            bump]
      | some c =>
        refine ⟨?_, ?_, ?_, ?_, fun hout => ?_⟩ <;>
          simp [course_details, load_courses, hfind, SpanRec.attr, List.lookup,
            bump]
        · simp [course_details, load_courses, hfind] at hout
  · intro ctx
    exact ⟨rfl, rfl, rfl, rfl, rfl⟩

/-- Witness for c9_amended_span_attrs at concrete requests, including the
validation-failure and not-found paths. -/
theorem c9_amended_span_attrs_witness :
    ((course_catalog ⟨"GET", "http://h/catalog", "127.0.0.1"⟩ 0 1 (fun _ => 0)
        (.valid [])).span.attr "http.method" = some (.s "GET")) ∧
    ((course_catalog ⟨"GET", "http://h/catalog", "127.0.0.1"⟩ 0 1 (fun _ => 0)
        (.valid [])).span.attr "requests.count" = some (.n 1)) ∧
    ((add_course ⟨"POST", "http://h/add_course", "127.0.0.1"⟩ 0 1
        ⟨none, some "Intro", some "Dr. X", none, none, none, none, none, none⟩
        (fun _ => 0) (fun _ => 0) .absent).span.attr "user.ip" =
      some (.s "127.0.0.1")) ∧
    ((add_course ⟨"POST", "http://h/add_course", "127.0.0.1"⟩ 0 1
        ⟨none, some "Intro", some "Dr. X", none, none, none, none, none, none⟩
        (fun _ => 0) (fun _ => 0) .absent).span.attr "error_count" =
      some (.n 1)) ∧
    ((course_details ⟨"GET", "http://h/course/ZZ999", "127.0.0.1"⟩ "ZZ999" 0 1
        (fun _ => 0) (.valid [])).span.attr "requests.count" = none) ∧
    ((course_details ⟨"GET", "http://h/course/ZZ999", "127.0.0.1"⟩ "ZZ999" 0 1
        (fun _ => 0) (.valid [])).span.attr "error_count" = some (.n 1)) ∧
    ((manual_trace ⟨"GET", "http://h/manual-trace", "127.0.0.1"⟩).attr
      "http.method" = some (.s "GET")) ∧
    ((manual_trace ⟨"GET", "http://h/manual-trace", "127.0.0.1"⟩).attr
      "user.ip" = none) := by
  have H := c9_amended_span_attrs
  refine ⟨(H.1 ⟨"GET", "http://h/catalog", "127.0.0.1"⟩ 0 1 (fun _ => 0)
      (.valid [])).1,
    ?_, (H.2.1 ⟨"POST", "http://h/add_course", "127.0.0.1"⟩ 0 1
      ⟨none, some "Intro", some "Dr. X", none, none, none, none, none, none⟩
      (fun _ => 0) (fun _ => 0) .absent).2.2.1,
    ?_, ?_, ?_,
    (H.2.2.2 ⟨"GET", "http://h/manual-trace", "127.0.0.1"⟩).1,
    (H.2.2.2 ⟨"GET", "http://h/manual-trace", "127.0.0.1"⟩).2.2.1⟩
  · exact (H.1 ⟨"GET", "http://h/catalog", "127.0.0.1"⟩ 0 1 (fun _ => 0)
      (.valid [])).2.2.2
  · exact (H.2.1 ⟨"POST", "http://h/add_course", "127.0.0.1"⟩ 0 1
      ⟨none, some "Intro", some "Dr. X", none, none, none, none, none, none⟩
      (fun _ => 0) (fun _ => 0) .absent).2.2.2.2 (by decide)
  · exact (H.2.2.1 ⟨"GET", "http://h/course/ZZ999", "127.0.0.1"⟩ "ZZ999" 0 1
      (fun _ => 0) (.valid [])).2.2.2.1
  · exact (H.2.2.1 ⟨"GET", "http://h/course/ZZ999", "127.0.0.1"⟩ "ZZ999" 0 1
      (fun _ => 0) (.valid [])).2.2.2.2 (by decide)

end CourseCatalog
